import Mathlib

/-!
Verification of the session/token lifecycle manager of the spotify_agent
backend (src/auth.py, src/main.py, src/spotify_tools.py), shallowly embedded
in Lean.  The remote document store is modelled as an association list from
document id to document; time is an integer count of seconds; Python falsiness
of optional strings is modelled explicitly.
-/

namespace SpotifyAgent

/-- Association-list lookup, modelling a Firestore document `get`. -/
def dbLookup {α : Type} (s : List (String × α)) (k : String) : Option α :=
  match s with
  | [] => none
  | (k', v) :: rest => if k' = k then some v else dbLookup rest k

/-- Association-list overwrite/insert, modelling a Firestore document `set`. -/
def dbSet {α : Type} (s : List (String × α)) (k : String) (v : α) : List (String × α) :=
  match s with
  | [] => [(k, v)]
  | (k', v') :: rest => if k' = k then (k, v) :: rest else (k', v') :: dbSet rest k v

/-- Association-list removal, modelling a Firestore document `delete`. -/
def dbDelete {α : Type} (s : List (String × α)) (k : String) : List (String × α) :=
  match s with
  | [] => []
  | (k', v') :: rest => if k' = k then dbDelete rest k else (k', v') :: dbDelete rest k

/-- Python truthiness of an optional string: `None` and `""` are falsy. -/
def truthyStr : Option String → Bool
  | none => false
  | some s => s ≠ ""

/-- A `sessions/{session_id}` document.  Every field is optional, as a
Firestore document is a dict accessed with `.get`. -/
structure SessionDoc where
  created_at : Option Int
  expires_at : Option Int
  active : Option Bool
  spotify_access_token : Option String
  spotify_refresh_token : Option String
  spotify_token_expires_at : Option Int
  spotify_scope : Option String
  spotify_linked_at : Option Int
deriving DecidableEq

abbrev SessionStore := List (String × SessionDoc)

/-- The JWT payload built in `generate_jwt_and_store_session`:
`{ "session_id": ..., "exp": ... }`. -/
structure JwtPayload where
  session_id : Option String
  exp : Option Int
deriving DecidableEq

/-- A signed token: `jwt.encode(payload, key)` binds the payload to the
signing key; only a decode with the same key verifies. -/
structure JwtToken where
  payload : JwtPayload
  key : String
deriving DecidableEq

def jwt_encode (payload : JwtPayload) (key : String) : JwtToken := ⟨payload, key⟩

/-- `jwt.decode(token, key, algorithms=[...])`: fails (`InvalidTokenError`)
when the signature does not verify against `key`, or when the embedded `exp`
claim is present and not in the future (PyJWT raises `ExpiredSignatureError`,
a subclass of `InvalidTokenError`, when `exp <= now`). -/
def jwt_decode (tok : JwtToken) (key : String) (now : Int) : Option JwtPayload :=
  if tok.key = key then
    match tok.payload.exp with
    | some e => if e ≤ now then none else some tok.payload
    | none => some tok.payload
  else none

/-- The four distinct 401 responses raised by `verify_jwt_token`. -/
inductive AuthError where
  /-- detail "Invalid token": signature failure or expired embedded `exp` -/
  | invalidToken
  /-- detail "Invalid token: missing session_id" -/
  | missingSessionId
  /-- detail "Session expired or invalid": no session document in the store -/
  | sessionNotFound
  /-- detail "Session expired": the stored `expires_at` is in the past -/
  | sessionExpired
deriving DecidableEq

/-- src/auth.py `verify_jwt_token`: decode the JWT, require a truthy
`session_id` claim, require the session document to exist, and fail
(deleting the document) when its stored `expires_at` is in the past.
The returned store reflects the lazy cleanup on the expired path. -/
def verify_jwt_token (key : String) (now : Int) (tok : JwtToken) (store : SessionStore) :
    Except AuthError JwtPayload × SessionStore :=
  match jwt_decode tok key now with
  | none => (.error .invalidToken, store)
  | some payload =>
    match payload.session_id with
    | none => (.error .missingSessionId, store)
    | some session_id =>
      if session_id = "" then (.error .missingSessionId, store)
      else
        match dbLookup store session_id with
        | none => (.error .sessionNotFound, store)
        | some session_data =>
          match session_data.expires_at with
          | some e =>
            if e < now then (.error .sessionExpired, dbDelete store session_id)
            else (.ok payload, store)
          | none => (.ok payload, store)

/-- src/auth.py `generate_jwt_and_store_session`: write a fresh session
document (`created_at = now`, `expires_at = now + 1h`, `active = true`) and
return the signed token with payload `{session_id, exp = expires_at}`.
The model is meaningful on valid Firestore document ids, which are nonempty:
the real client raises on `document("")` before any write, so the program
only ever runs this with the nonempty UUID-class ids its caller generates. -/
def generate_jwt_and_store_session (key : String) (session_id : String) (now : Int)
    (store : SessionStore) : JwtToken × SessionStore :=
  let created_at := now
  let expires_at := created_at + 3600
  let payload : JwtPayload := { session_id := some session_id, exp := some expires_at }
  let session_data : SessionDoc :=
    { created_at := some created_at
      expires_at := some expires_at
      active := some true
      spotify_access_token := none
      spotify_refresh_token := none
      spotify_token_expires_at := none
      spotify_scope := none
      spotify_linked_at := none }
  (jwt_encode payload key, dbSet store session_id session_data)

/-- src/auth.py `revoke_session`: unconditionally delete the document. -/
def revoke_session (session_id : String) (store : SessionStore) : SessionStore :=
  dbDelete store session_id

/-- src/auth.py `store_spotify_tokens`: Firestore `update` on the session
document, which fails when the document does not exist; otherwise it merges
the five spotify fields into the document, overwriting previous values.
`expires_at` of the bundle is `now + expires_in` seconds. -/
def store_spotify_tokens (session_id access_token refresh_token : String) (expires_in : Int)
    (scope : String) (now : Int) (store : SessionStore) : Except Unit SessionStore :=
  match dbLookup store session_id with
  | none => .error ()
  | some doc =>
      let spotify_token_expires_at := now + expires_in
      .ok (dbSet store session_id
        { doc with
          spotify_access_token := some access_token
          spotify_refresh_token := some refresh_token
          spotify_token_expires_at := some spotify_token_expires_at
          spotify_scope := some scope
          spotify_linked_at := some now })

/-- The dict returned by a successful `get_spotify_tokens`. -/
structure SpotifyTokenBundle where
  access_token : Option String
  refresh_token : Option String
  expires_at : Option Int
  scope : Option String
deriving DecidableEq

/-- src/auth.py `get_spotify_tokens`: returns `None` when the document is
missing, when `spotify_access_token` is falsy (absent or empty), or when the
stored bundle expiry is in the past; otherwise returns the four-field bundle.
The store is threaded through unchanged: the function only reads. -/
def get_spotify_tokens (session_id : String) (now : Int) (store : SessionStore) :
    Option SpotifyTokenBundle × SessionStore :=
  match dbLookup store session_id with
  | none => (none, store)
  | some session_data =>
    match session_data.spotify_access_token with
    | none => (none, store)
    | some tokval =>
      if tokval = "" then (none, store)
      else
        match session_data.spotify_token_expires_at with
        | some e =>
          if e < now then (none, store)
          else
            (some { access_token := session_data.spotify_access_token
                    refresh_token := session_data.spotify_refresh_token
                    expires_at := session_data.spotify_token_expires_at
                    scope := session_data.spotify_scope }, store)
        | none =>
            (some { access_token := session_data.spotify_access_token
                    refresh_token := session_data.spotify_refresh_token
                    expires_at := session_data.spotify_token_expires_at
                    scope := session_data.spotify_scope }, store)

/-- The four distinct 400 responses raised by `spotify_callback` before the
token-exchange network request. -/
inductive CallbackError where
  /-- detail "Spotify OAuth error: ..." -/
  | oauthError (msg : String)
  /-- detail "No authorization code received" -/
  | noAuthorizationCode
  /-- detail "Missing state parameter" -/
  | missingState
  /-- detail "Invalid state parameter format" -/
  | invalidStateFormat
deriving DecidableEq

/-- Python `s.split(":", 1)` followed by a two-variable unpack: succeeds with
the parts around the first colon, or raises `ValueError` (here `none`) when
the string has no colon. -/
def splitFirstColon : List Char → Option (List Char × List Char)
  | [] => none
  | c :: rest =>
    if c = ':' then some ([], rest)
    else match splitFirstColon rest with
      | none => none
      | some (a, b) => some (c :: a, b)

def stateSplit (s : String) : Option (String × String) :=
  match splitFirstColon s.data with
  | none => none
  | some (a, b) => some (String.mk a, String.mk b)

/-- src/main.py `spotify_callback`, the phase before the code-for-token
exchange: check the `error` parameter, then the `code`, then presence and
format of `state`.  `.ok session_id` means control reaches the network
request to the provider token endpoint with that session id. -/
def spotify_callback_pre (code error state : Option String) :
    Except CallbackError String :=
  if truthyStr error then .error (.oauthError (error.getD ""))
  else if !truthyStr code then .error .noAuthorizationCode
  else if !truthyStr state then .error .missingState
  else match stateSplit (state.getD "") with
    | none => .error .invalidStateFormat
    | some (session_id, _) => .ok session_id

/-- One entry of a conversation document's `messages` array. -/
structure ConversationMessage where
  timestamp : Int
  message : String
  response : String
deriving DecidableEq

/-- A `conversations/{session_id}_{conversation_id}` document. -/
structure ConversationDoc where
  session_id : Option String
  conversation_id : Option String
  created_at : Option Int
  updated_at : Option Int
  messages : Option (List ConversationMessage)
deriving DecidableEq

abbrev ConversationStore := List (String × ConversationDoc)

/-- The sort key used by `get_conversation_history`: ascending timestamp. -/
def msgLe (a b : ConversationMessage) : Bool := a.timestamp ≤ b.timestamp

/-- Python `l[-limit:]` for an integer `limit`. -/
def pyTailSlice {α : Type} (l : List α) (limit : Int) : List α :=
  if 0 ≤ limit then l.drop (l.length - limit.toNat)
  else l.drop (-limit).toNat

/-- src/auth.py `get_conversation_history`: empty for a missing document;
otherwise the `messages` array stably sorted by timestamp, truncated with
`messages[-limit:]` when `limit` is truthy (nonzero). -/
def get_conversation_history (cstore : ConversationStore)
    (session_id conversation_id : String) (limit : Int) : List ConversationMessage :=
  match dbLookup cstore (session_id ++ "_" ++ conversation_id) with
  | none => []
  | some doc =>
    let messages := doc.messages.getD []
    let sorted := messages.mergeSort msgLe
    if limit ≠ 0 then pyTailSlice sorted limit else sorted

/-! ## Tool layer (src/spotify_tools.py)

Python/JSON values are modelled by `JValue`; a raised Python exception is an
`Except.error` carrying the exception text.  Each tool body is the code inside
its `try:` block; `tryExcept` is the `except Exception as e:` handler that
turns any raised exception into the tool's error string. -/

inductive JValue where
  | null
  | jbool (b : Bool)
  | jnum (n : Int)
  | jstr (s : String)
  | jarr (items : List JValue)
  | jobj (fields : List (String × JValue))

mutual

/-- `json.dumps`, rendering a value to a string. -/
def jdump : JValue → String
  | .null => "null"
  | .jbool b => if b then "true" else "false"
  | .jnum n => toString n
  | .jstr s => "\"" ++ s ++ "\""
  | .jarr items => "[" ++ jdumpArr items ++ "]"
  | .jobj fields => "\x7b" ++ jdumpObj fields ++ "\x7d"

def jdumpArr : List JValue → String
  | [] => ""
  | [x] => jdump x
  | x :: y :: xs => jdump x ++ ", " ++ jdumpArr (y :: xs)

def jdumpObj : List (String × JValue) → String
  | [] => ""
  | [(k, v)] => "\"" ++ k ++ "\": " ++ jdump v
  | (k, v) :: y :: xs => "\"" ++ k ++ "\": " ++ jdump v ++ ", " ++ jdumpObj (y :: xs)

end

/-- Python `d[k]`: raises `KeyError` on a missing key, `TypeError` when the
value is not a dict. -/
def jIndex (v : JValue) (k : String) : Except String JValue :=
  match v with
  | .jobj fields =>
    match dbLookup fields k with
    | some x => .ok x
    | none => .error ("KeyError: " ++ k)
  | _ => .error ("TypeError: value is not subscriptable at key " ++ k)

/-- Python `l[i]`: raises `IndexError` out of range, `TypeError` on non-list. -/
def jIndexNat (v : JValue) (i : Nat) : Except String JValue :=
  match v with
  | .jarr items =>
    match items[i]? with
    | some x => .ok x
    | none => .error "IndexError: list index out of range"
  | _ => .error "TypeError: value is not a list"

/-- Python `d.get(k, dflt)`: default on a missing key, raises on a non-dict. -/
def jGetD (v : JValue) (k : String) (dflt : JValue) : Except String JValue :=
  match v with
  | .jobj fields =>
    match dbLookup fields k with
    | some x => .ok x
    | none => .ok dflt
  | _ => .error "AttributeError: value has no attribute get"

/-- Python `for x in v`: iterates a list, raises `TypeError` otherwise. -/
def jItems (v : JValue) : Except String (List JValue) :=
  match v with
  | .jarr items => .ok items
  | _ => .error "TypeError: value is not iterable"

/-- The spotipy client: each endpoint either returns a value or raises.
Arbitrary behaviours quantify over every possible provider response. -/
structure SpClient where
  current_user : Except String JValue
  current_user_playlists : Int → Except String JValue
  current_user_saved_tracks : Int → Except String JValue
  search : String → String → Int → Except String JValue
  current_user_top_tracks : Int → String → Except String JValue
  current_user_recently_played : Int → Except String JValue
  next_track : Except String JValue
  add_to_queue : String → Except String JValue
  current_user_playing_track : Except String JValue

/-- The `try: body except Exception as e: return handler(str(e))` pattern that
wraps every tool body: an exception raised in the body becomes an ordinary
string return value. -/
def tryExcept (body : Except String String) (handler : String → String) :
    Except String String :=
  match body with
  | .ok s => .ok s
  | .error e => .ok (handler e)

def get_user_profile (sp : SpClient) (_input_text : String) : Except String String :=
  tryExcept (do
    let profile ← sp.current_user
    let name ← jGetD profile "display_name" .null
    let i ← jGetD profile "id" .null
    let followersObj ← jGetD profile "followers" (.jobj [])
    let followersTotal ← jGetD followersObj "total" (.jnum 0)
    let country ← jGetD profile "country" .null
    pure (jdump (.jobj
      [("name", name), ("id", i), ("followers", followersTotal), ("country", country)])))
    (fun e => "Error getting profile: " ++ e)

def get_user_playlists (sp : SpClient) (_input_text : String) : Except String String :=
  tryExcept (do
    let playlists ← sp.current_user_playlists 20
    let itemList ← jItems (← jIndex playlists "items")
    let playlist_data ← itemList.mapM (fun playlist => do
      let name ← jIndex playlist "name"
      let i ← jIndex playlist "id"
      let tracks_total ← jIndex (← jIndex playlist "tracks") "total"
      let pub ← jIndex playlist "public"
      pure (JValue.jobj
        [("name", name), ("id", i), ("tracks_total", tracks_total), ("public", pub)]))
    pure (jdump (.jarr playlist_data)))
    (fun e => "Error getting playlists: " ++ e)

def get_saved_tracks (sp : SpClient) (_input_text : String) : Except String String :=
  tryExcept (do
    let tracks ← sp.current_user_saved_tracks 20
    let itemList ← jItems (← jIndex tracks "items")
    let track_data ← itemList.mapM (fun item => do
      let track ← jIndex item "track"
      let name ← jIndex track "name"
      let artist ← jIndex (← jIndexNat (← jIndex track "artists") 0) "name"
      let album ← jIndex (← jIndex track "album") "name"
      let i ← jIndex track "id"
      pure (JValue.jobj [("name", name), ("artist", artist), ("album", album), ("id", i)]))
    pure (jdump (.jarr track_data)))
    (fun e => "Error getting saved tracks: " ++ e)

def search_spotify (sp : SpClient) (query : String) : Except String String :=
  tryExcept (do
    let results ← sp.search query "track,artist,album" 10
    let trackItems ← jItems (← jIndex (← jIndex results "tracks") "items")
    let tracks ← trackItems.mapM (fun track => do
      let name ← jIndex track "name"
      let artist ← jIndex (← jIndexNat (← jIndex track "artists") 0) "name"
      let i ← jIndex track "id"
      pure (JValue.jobj [("name", name), ("artist", artist), ("id", i)]))
    let artistItems ← jItems (← jIndex (← jIndex results "artists") "items")
    let artists ← artistItems.mapM (fun artist => do
      let name ← jIndex artist "name"
      let i ← jIndex artist "id"
      let followers ← jIndex (← jIndex artist "followers") "total"
      pure (JValue.jobj [("name", name), ("id", i), ("followers", followers)]))
    let albumItems ← jItems (← jIndex (← jIndex results "albums") "items")
    let albums ← albumItems.mapM (fun album => do
      let name ← jIndex album "name"
      let artist ← jIndex (← jIndexNat (← jIndex album "artists") 0) "name"
      let i ← jIndex album "id"
      pure (JValue.jobj [("name", name), ("artist", artist), ("id", i)]))
    pure (jdump (.jobj
      [("tracks", .jarr tracks), ("artists", .jarr artists), ("albums", .jarr albums)])))
    (fun e => "Error searching: " ++ e)

/-- `needle` matches at the head of `hay`. -/
def matchesAt : List Char → List Char → Bool
  | [], _ => true
  | _ :: _, [] => false
  | n :: ns, h :: hs => n = h && matchesAt ns hs

/-- Python `needle in hay` substring test. -/
def containsSub (hay needle : List Char) : Bool :=
  match hay with
  | [] => needle.isEmpty
  | _ :: rest => matchesAt needle hay || containsSub rest needle

def strHasSub (hay needle : String) : Bool := containsSub hay.data needle.data

def get_top_tracks (sp : SpClient) (input_text : String) : Except String String :=
  tryExcept (do
    let time_range :=
      if input_text ≠ "" && strHasSub input_text.toLower "short" then "short_term"
      else if input_text ≠ "" && strHasSub input_text.toLower "long" then "long_term"
      else "medium_term"
    let top_tracks ← sp.current_user_top_tracks 20 time_range
    let itemList ← jItems (← jIndex top_tracks "items")
    let track_data ← itemList.mapM (fun track => do
      let name ← jIndex track "name"
      let artist ← jIndex (← jIndexNat (← jIndex track "artists") 0) "name"
      let popularity ← jIndex track "popularity"
      let i ← jIndex track "id"
      pure (JValue.jobj
        [("name", name), ("artist", artist), ("popularity", popularity), ("id", i)]))
    pure (jdump (.jarr track_data)))
    (fun e => "Error getting top tracks: " ++ e)

/-- Python `s.split()`: split on whitespace runs, no empty tokens. -/
def splitWsAux : List Char → List Char → List (List Char)
  | [], acc => if acc.isEmpty then [] else [acc.reverse]
  | c :: rest, acc =>
    if c.isWhitespace then
      if acc.isEmpty then splitWsAux rest []
      else acc.reverse :: splitWsAux rest []
    else splitWsAux rest (c :: acc)

/-- Python `int(s)` for a string of decimal digits. -/
def digitsToNat (l : List Char) : Nat :=
  l.foldl (fun acc c => acc * 10 + (c.toNat - 48)) 0

def get_recently_played (sp : SpClient) (input_text : String) : Except String String :=
  tryExcept (do
    let limit : Int :=
      if input_text ≠ "" && input_text.data.any Char.isDigit then
        let numbers := ((splitWsAux input_text.data []).filter
          (fun t => !t.isEmpty && t.all Char.isDigit)).map (fun t => (digitsToNat t : Int))
        match numbers with
        | n :: _ => min n 50
        | [] => 20
      else 20
    let recent ← sp.current_user_recently_played limit
    let itemList ← jItems (← jIndex recent "items")
    let track_data ← itemList.mapM (fun item => do
      let track ← jIndex item "track"
      let name ← jIndex track "name"
      let artist ← jIndex (← jIndexNat (← jIndex track "artists") 0) "name"
      let played_at ← jIndex item "played_at"
      let i ← jIndex track "id"
      pure (JValue.jobj
        [("name", name), ("artist", artist), ("played_at", played_at), ("id", i)]))
    pure (jdump (.jarr track_data)))
    (fun e => "Error getting recently played: " ++ e)

def play_next_song (sp : SpClient) (_input_text : String) : Except String String :=
  tryExcept (do
    let _ ← sp.next_track
    pure "Next song queued")
    (fun e => "Error playing next song: " ++ e)

def add_to_queue (sp : SpClient) (input_text : String) : Except String String :=
  tryExcept (do
    let _ ← sp.add_to_queue input_text
    pure "Song added to queue")
    (fun e => "Error adding to queue: " ++ e)

def get_user_current_track (sp : SpClient) (_input_text : String) : Except String String :=
  tryExcept (do
    let current_track ← sp.current_user_playing_track
    pure (jdump current_track))
    (fun e => "Error getting current track: " ++ e)

/-- A LangChain `Tool`: a name and the wrapped function.  (The natural-language
description passed to the agent plays no role in the tool semantics.) -/
structure SpotifyTool where
  name : String
  func : String → Except String String

/-- src/spotify_tools.py `create_spotify_tools`: the nine tools, each closing
over the client built from the caller's access token. -/
def create_spotify_tools (sp : SpClient) : List SpotifyTool :=
  [ ⟨"get_user_profile", get_user_profile sp⟩,
    ⟨"get_user_playlists", get_user_playlists sp⟩,
    ⟨"get_saved_tracks", get_saved_tracks sp⟩,
    ⟨"search_spotify", search_spotify sp⟩,
    ⟨"get_top_tracks", get_top_tracks sp⟩,
    ⟨"get_recently_played", get_recently_played sp⟩,
    ⟨"play_next_song", play_next_song sp⟩,
    ⟨"add_to_queue", add_to_queue sp⟩,
    ⟨"get_user_current_track", get_user_current_track sp⟩ ]

/-! ## Concrete instances used to witness the theorems -/

/-- A fresh session document as written by `generate_jwt_and_store_session`
at time 0, used as the base of concrete scenarios. -/
def baseDoc : SessionDoc :=
  { created_at := some 0, expires_at := some 3600, active := some true,
    spotify_access_token := none, spotify_refresh_token := none,
    spotify_token_expires_at := none, spotify_scope := none,
    spotify_linked_at := none }

def baseStore : SessionStore := [("s", baseDoc)]

/-- An error-everywhere spotipy client. -/
def spFailing : SpClient :=
  { current_user := .error "boom"
    current_user_playlists := fun _ => .error "boom"
    current_user_saved_tracks := fun _ => .error "boom"
    search := fun _ _ _ => .error "boom"
    current_user_top_tracks := fun _ _ => .error "boom"
    current_user_recently_played := fun _ => .error "boom"
    next_track := .error "boom"
    add_to_queue := fun _ => .error "boom"
    current_user_playing_track := .error "boom" }

def c1Tok : JwtToken := ⟨⟨some "s", some 100⟩, "k"⟩

/-- A session document whose stored expiry (-1) is in the past at time 0;
exactly what `generate_jwt_and_store_session` writes at time -3601. -/
def c2ExpiredDoc : SessionDoc :=
  { created_at := some (-3601), expires_at := some (-1), active := some true,
    spotify_access_token := none, spotify_refresh_token := none,
    spotify_token_expires_at := none, spotify_scope := none,
    spotify_linked_at := none }

def c2ExpiredStore : SessionStore := [("s", c2ExpiredDoc)]

/-- The credential Issue returns for that session: its embedded exp equals the
stored expiry, kept in lock-step. -/
def c2ExpiredTok : JwtToken := ⟨⟨some "s", some (-1)⟩, "k"⟩

/-- The store after `store_spotify_tokens "s" "a" "r" 3600 "sc" 0 baseStore`. -/
def c5AttachedDoc : SessionDoc :=
  { created_at := some 0, expires_at := some 3600, active := some true,
    spotify_access_token := some "a", spotify_refresh_token := some "r",
    spotify_token_expires_at := some 3600, spotify_scope := some "sc",
    spotify_linked_at := some 0 }

def c5AttachedStore : SessionStore := [("s", c5AttachedDoc)]

/-- The store after attaching a bundle whose access token is empty. -/
def c5EmptyTokDoc : SessionDoc :=
  { created_at := some 0, expires_at := some 3600, active := some true,
    spotify_access_token := some "", spotify_refresh_token := some "r",
    spotify_token_expires_at := some 3600, spotify_scope := some "sc",
    spotify_linked_at := some 0 }

def c5EmptyTokStore : SessionStore := [("s", c5EmptyTokDoc)]

/-- The store after a second attach over `c5AttachedStore`. -/
def c6Doc2 : SessionDoc :=
  { created_at := some 0, expires_at := some 3600, active := some true,
    spotify_access_token := some "a2", spotify_refresh_token := some "r2",
    spotify_token_expires_at := some 107, spotify_scope := some "sc2",
    spotify_linked_at := some 7 }

def c6Store2 : SessionStore := [("s", c6Doc2)]

def c10Doc : ConversationDoc :=
  { session_id := some "s", conversation_id := some "c", created_at := some 0,
    updated_at := some 2,
    messages := some [⟨2, "m2", "r2"⟩, ⟨1, "m1", "r1"⟩] }

def c10Store : ConversationStore := [("s_c", c10Doc)]

/-! ## Store lemmas -/

theorem dbLookup_dbSet_self {α : Type} (s : List (String × α)) (k : String) (v : α) :
    dbLookup (dbSet s k v) k = some v := by
  induction s with
  | nil => simp [dbSet, dbLookup]
  | cons hd tl ih =>
    obtain ⟨k', v'⟩ := hd
    by_cases h : k' = k <;> simp [dbSet, dbLookup, h, ih]

theorem dbLookup_dbDelete_self {α : Type} (s : List (String × α)) (k : String) :
    dbLookup (dbDelete s k) k = none := by
  induction s with
  | nil => simp [dbDelete, dbLookup]
  | cons hd tl ih =>
    obtain ⟨k', v'⟩ := hd
    by_cases h : k' = k <;> simp [dbDelete, dbLookup, h, ih]

/-! ## JWT lemmas -/

theorem jwt_decode_ok {tok : JwtToken} {key : String} {now : Int} {p : JwtPayload}
    (h : jwt_decode tok key now = some p) :
    tok.key = key ∧ p = tok.payload ∧ ∀ e, tok.payload.exp = some e → now < e := by
  unfold jwt_decode at h
  by_cases hk : tok.key = key
  · rcases he : tok.payload.exp with _ | e <;> rw [he] at h <;> simp [hk] at h
    · exact ⟨hk, h.symm, fun x hx => by simp [he] at hx⟩
    · obtain ⟨hlt, hp⟩ := h
      exact ⟨hk, hp.symm, fun x hx => by simp [he] at hx; omega⟩
  · simp [hk] at h

theorem jwt_decode_eq (tok : JwtToken) (key : String) (now : Int) (hk : tok.key = key)
    (hexp : ∀ x, tok.payload.exp = some x → now < x) :
    jwt_decode tok key now = some tok.payload := by
  unfold jwt_decode
  rcases hx : tok.payload.exp with _ | x
  · simp [hk]
  · have := hexp x hx
    simp [hk, show ¬ x ≤ now from by omega]

/-! ## Claim theorems -/

/-- C1: a credential is accepted by `verify_jwt_token` (the decoded claims are
returned) only if its signature verifies against the server-held key, its
payload carries a (nonempty) session identifier, and that identifier resolves
to a stored session whose `expires_at` is not in the past.  Expiry is enforced
independently by the embedded `exp` claim (the decode succeeds only when
`now < exp`) and by the stored record's `expires_at`. -/
theorem C1_verify_acceptance_invariant
    (key : String) (now : Int) (tok : JwtToken) (store : SessionStore)
    (payload : JwtPayload) (store' : SessionStore)
    (h : verify_jwt_token key now tok store = (.ok payload, store')) :
    tok.key = key ∧
    (∀ e, tok.payload.exp = some e → now < e) ∧
    ∃ sid, payload.session_id = some sid ∧ sid ≠ "" ∧
      ∃ doc, dbLookup store sid = some doc ∧
        ∀ e, doc.expires_at = some e → ¬ e < now := by
  unfold verify_jwt_token at h
  split at h
  · simp at h
  next p hdec =>
    obtain ⟨hk, hp, hexp⟩ := jwt_decode_ok hdec
    split at h
    · simp at h
    next sid hsid =>
      split at h
      · simp at h
      next hne =>
        split at h
        · simp at h
        next doc hlook =>
          split at h
          next e hea =>
            split at h
            · simp at h
            next hlt =>
              simp at h
              obtain ⟨hpl, hst⟩ := h
              exact ⟨hk, hexp, sid, hpl ▸ hsid, hne, doc, hlook,
                fun x hx => by simp [hea] at hx; omega⟩
          next hea =>
            simp at h
            obtain ⟨hpl, hst⟩ := h
            exact ⟨hk, hexp, sid, hpl ▸ hsid, hne, doc, hlook,
              fun x hx => by simp [hea] at hx⟩

theorem C1_verify_acceptance_invariant_witness :
    verify_jwt_token "k" 0 c1Tok baseStore = (.ok c1Tok.payload, baseStore) ∧
    (c1Tok.key = "k" ∧
     (∀ e, c1Tok.payload.exp = some e → (0 : Int) < e) ∧
     ∃ sid, c1Tok.payload.session_id = some sid ∧ sid ≠ "" ∧
       ∃ doc, dbLookup baseStore sid = some doc ∧
         ∀ e, doc.expires_at = some e → ¬ e < (0 : Int)) :=
  ⟨rfl,
   C1_verify_acceptance_invariant "k" 0 c1Tok baseStore c1Tok.payload baseStore rfl⟩

/-- C2 counterexample: for a session whose stored `expires_at` (-1) is in the
past at verification time 0, Verify on the credential Issue returned for it
(whose embedded exp is the same past instant) fails with the decode-level
InvalidToken error, not SessionExpired, and the record is not deleted. -/
theorem C2_counterexample :
    (generate_jwt_and_store_session "k" "s" (-3601) [] = (c2ExpiredTok, c2ExpiredStore) ∧
     dbLookup c2ExpiredStore "s" = some c2ExpiredDoc ∧
     c2ExpiredDoc.expires_at = some (-1) ∧ (-1 : Int) < 0 ∧
     c2ExpiredTok.payload.session_id = some "s") ∧
    verify_jwt_token "k" 0 c2ExpiredTok c2ExpiredStore
      = (.error .invalidToken, c2ExpiredStore) ∧
    AuthError.invalidToken ≠ AuthError.sessionExpired := by
  refine ⟨⟨by decide, rfl, rfl, by decide, rfl⟩, rfl, by decide⟩

/-- C2 (amended): for a session whose stored `expires_at` is in the past while
the presented credential's own embedded exp is still in the future (the stored
expiry was forced into the past independently), Verify fails with
SessionExpired and deletes the session record, and an immediately subsequent
Verify with the same credential fails with SessionNotFound. -/
theorem C2_expired_session_lazy_deletion
    (key sid : String) (now e : Int) (tok : JwtToken) (store : SessionStore)
    (doc : SessionDoc)
    (hk : tok.key = key) (hsid : tok.payload.session_id = some sid) (hne : sid ≠ "")
    (hexp : ∀ x, tok.payload.exp = some x → now < x)
    (hlook : dbLookup store sid = some doc) (hdoc : doc.expires_at = some e)
    (he : e < now) :
    verify_jwt_token key now tok store = (.error .sessionExpired, dbDelete store sid) ∧
    verify_jwt_token key now tok (dbDelete store sid)
      = (.error .sessionNotFound, dbDelete store sid) := by
  have hdec := jwt_decode_eq tok key now hk hexp
  constructor
  · simp [verify_jwt_token, hdec, hsid, hne, hlook, hdoc, he]
  · simp [verify_jwt_token, hdec, hsid, hne, dbLookup_dbDelete_self]

theorem C2_expired_session_lazy_deletion_witness :
    (c1Tok.key = "k" ∧ c1Tok.payload.session_id = some "s" ∧ ("s" : String) ≠ "" ∧
     (∀ x, c1Tok.payload.exp = some x → (0 : Int) < x) ∧
     dbLookup c2ExpiredStore "s" = some c2ExpiredDoc ∧
     c2ExpiredDoc.expires_at = some (-1) ∧ (-1 : Int) < 0) ∧
    verify_jwt_token "k" 0 c1Tok c2ExpiredStore
      = (.error .sessionExpired, dbDelete c2ExpiredStore "s") ∧
    verify_jwt_token "k" 0 c1Tok (dbDelete c2ExpiredStore "s")
      = (.error .sessionNotFound, dbDelete c2ExpiredStore "s") :=
  ⟨⟨rfl, rfl, by decide, fun x hx => by simp [c1Tok] at hx; omega, rfl, rfl, by decide⟩,
   C2_expired_session_lazy_deletion "k" "s" 0 (-1) c1Tok c2ExpiredStore c2ExpiredDoc
     rfl rfl (by decide) (fun x hx => by simp [c1Tok] at hx; omega) rfl rfl (by decide)⟩

/-- C3: for every valid session identifier — identifiers are UUID-class
values, hence nonempty (Firestore rejects the empty document id before any
write, so Issue only ever runs on nonempty ids) — Issue followed immediately
by Verify succeeds, and the returned claims carry exactly that session
identifier. -/
theorem C3_issue_then_verify (key session_id : String) (now : Int) (store : SessionStore)
    (hsid : session_id ≠ "") :
    verify_jwt_token key now (generate_jwt_and_store_session key session_id now store).1
        (generate_jwt_and_store_session key session_id now store).2
      = (.ok { session_id := some session_id, exp := some (now + 3600) },
         (generate_jwt_and_store_session key session_id now store).2) := by
  unfold generate_jwt_and_store_session jwt_encode verify_jwt_token jwt_decode
  simp [hsid, dbLookup_dbSet_self, show ¬ now + 3600 ≤ now from by omega,
        show ¬ now + 3600 < now from by omega]

theorem C3_issue_then_verify_witness :
    ("abc" : String) ≠ "" ∧
    verify_jwt_token "k" 0 (generate_jwt_and_store_session "k" "abc" 0 []).1
        (generate_jwt_and_store_session "k" "abc" 0 []).2
      = (.ok { session_id := some "abc", exp := some (0 + 3600) },
         (generate_jwt_and_store_session "k" "abc" 0 []).2) :=
  ⟨by decide, C3_issue_then_verify "k" "abc" 0 [] (by decide)⟩

/-- C4: Issue writes a session record with `created_at = now`,
`expires_at = now + 3600` (creation plus exactly the fixed one-hour TTL),
`active = true` and no provider-token fields, and returns a credential signed
with the server key whose payload is exactly `{session_id, exp = expires_at}`. -/
theorem C4_issue_record_and_credential (key session_id : String) (now : Int)
    (store : SessionStore) :
    (generate_jwt_and_store_session key session_id now store).1
      = { payload := { session_id := some session_id, exp := some (now + 3600) },
          key := key } ∧
    dbLookup (generate_jwt_and_store_session key session_id now store).2 session_id
      = some { created_at := some now, expires_at := some (now + 3600),
               active := some true,
               spotify_access_token := none, spotify_refresh_token := none,
               spotify_token_expires_at := none, spotify_scope := none,
               spotify_linked_at := none } :=
  ⟨rfl, dbLookup_dbSet_self store session_id _⟩

/-- C5 (amended): on an existing session, Attach of a bundle with a nonempty
access token followed by Read returns exactly the attached bundle (access
token, refresh token, scope, and expiry equal to attach time plus
`expires_in` seconds) while that computed expiry has not passed, and returns
absent once it has. -/
theorem C5_attach_then_read (sid access_token refresh_token : String) (expires_in : Int)
    (scope : String) (now readTime : Int) (store st1 : SessionStore)
    (hacc : access_token ≠ "")
    (hatt : store_spotify_tokens sid access_token refresh_token expires_in scope now store
      = .ok st1) :
    (¬ now + expires_in < readTime →
      (get_spotify_tokens sid readTime st1).1
        = some { access_token := some access_token,
                 refresh_token := some refresh_token,
                 expires_at := some (now + expires_in), scope := some scope }) ∧
    (now + expires_in < readTime → (get_spotify_tokens sid readTime st1).1 = none) := by
  unfold store_spotify_tokens at hatt
  split at hatt
  · simp at hatt
  next doc hlook =>
    simp at hatt
    subst hatt
    constructor <;> intro hexp <;>
      simp [get_spotify_tokens, dbLookup_dbSet_self, hacc, hexp]

theorem C5_attach_then_read_witness :
    (("a" : String) ≠ "" ∧
     store_spotify_tokens "s" "a" "r" 3600 "sc" 0 baseStore = .ok c5AttachedStore) ∧
    ((¬ (0 : Int) + 3600 < 10 →
      (get_spotify_tokens "s" 10 c5AttachedStore).1
        = some { access_token := some "a", refresh_token := some "r",
                 expires_at := some ((0 : Int) + 3600), scope := some "sc" }) ∧
     ((0 : Int) + 3600 < 10 → (get_spotify_tokens "s" 10 c5AttachedStore).1 = none)) :=
  ⟨⟨by decide, rfl⟩,
   C5_attach_then_read "s" "a" "r" 3600 "sc" 0 10 baseStore c5AttachedStore
     (by decide) rfl⟩

/-- C5 counterexample: attaching a bundle whose access token is the empty
string (expiry 3600 still in the future at read time 10) and then reading
returns absent, not the attached bundle. -/
theorem C5_counterexample :
    store_spotify_tokens "s" "" "r" 3600 "sc" 0 baseStore = .ok c5EmptyTokStore ∧
    ¬ (0 : Int) + 3600 < 10 ∧
    (get_spotify_tokens "s" 10 c5EmptyTokStore).1 = none :=
  ⟨rfl, by decide, rfl⟩

/-- C6: Attach unconditionally overwrites the previously attached bundle on an
existing session: after two successive Attach calls the stored bundle fields
are exactly those of the second call, with no merge of the first bundle's
fields. -/
theorem C6_attach_last_write_wins
    (sid a1 r1 : String) (e1 : Int) (sc1 : String) (t1 : Int)
    (a2 r2 : String) (e2 : Int) (sc2 : String) (t2 : Int)
    (store st1 st2 : SessionStore)
    (h1 : store_spotify_tokens sid a1 r1 e1 sc1 t1 store = .ok st1)
    (h2 : store_spotify_tokens sid a2 r2 e2 sc2 t2 st1 = .ok st2) :
    ∃ doc2, dbLookup st2 sid = some doc2 ∧
      doc2.spotify_access_token = some a2 ∧
      doc2.spotify_refresh_token = some r2 ∧
      doc2.spotify_token_expires_at = some (t2 + e2) ∧
      doc2.spotify_scope = some sc2 ∧
      doc2.spotify_linked_at = some t2 := by
  unfold store_spotify_tokens at h1 h2
  split at h1
  · simp at h1
  next doc hlook =>
    simp at h1
    subst h1
    rw [dbLookup_dbSet_self] at h2
    simp at h2
    subst h2
    exact ⟨_, dbLookup_dbSet_self _ _ _, rfl, rfl, rfl, rfl, rfl⟩

theorem C6_attach_last_write_wins_witness :
    (store_spotify_tokens "s" "a" "r" 3600 "sc" 0 baseStore = .ok c5AttachedStore ∧
     store_spotify_tokens "s" "a2" "r2" 100 "sc2" 7 c5AttachedStore = .ok c6Store2) ∧
    ∃ doc2, dbLookup c6Store2 "s" = some doc2 ∧
      doc2.spotify_access_token = some "a2" ∧
      doc2.spotify_refresh_token = some "r2" ∧
      doc2.spotify_token_expires_at = some ((7 : Int) + 100) ∧
      doc2.spotify_scope = some "sc2" ∧
      doc2.spotify_linked_at = some 7 :=
  ⟨⟨rfl, rfl⟩,
   C6_attach_last_write_wins "s" "a" "r" 3600 "sc" 0 "a2" "r2" 100 "sc2" 7
     baseStore c5AttachedStore c6Store2 rfl rfl⟩

/-- C7 (amended): Read returns absent in exactly three state cases — the
session document does not exist, the stored access token is falsy (absent or
empty, i.e. no usable bundle), or the stored bundle expiry has passed — and
in every case, including the expired-bundle case, it performs no write: the
store is returned unchanged. -/
theorem C7_read_absent_cases (sid : String) (now : Int) (store : SessionStore) :
    ((get_spotify_tokens sid now store).1 = none ↔
      dbLookup store sid = none ∨
      (∃ doc, dbLookup store sid = some doc ∧
        (doc.spotify_access_token = none ∨ doc.spotify_access_token = some "")) ∨
      (∃ doc e tokval, dbLookup store sid = some doc ∧
        doc.spotify_access_token = some tokval ∧ tokval ≠ "" ∧
        doc.spotify_token_expires_at = some e ∧ e < now)) ∧
    (get_spotify_tokens sid now store).2 = store := by
  unfold get_spotify_tokens
  rcases hlook : dbLookup store sid with _ | doc
  · simp [hlook]
  · rcases hacc : doc.spotify_access_token with _ | tokval
    · simp [hlook, hacc]
    · by_cases hne : tokval = ""
      · subst hne
        simp [hlook, hacc]
      · rcases hexp : doc.spotify_token_expires_at with _ | e
        · simp [hlook, hacc, hne, hexp]
        · by_cases hlt : e < now
          · simp [hlook, hacc, hne, hexp, hlt]
          · simp [hlook, hacc, hne, hexp, hlt]

/-- C7 counterexample: after attaching a bundle whose access token is the
empty string, Read returns absent although the session document exists, a
bundle was attached (the access-token field is present), and the stored
expiry (3600) has not passed at read time 10 — a fourth absent case beyond
the claim's three. -/
theorem C7_counterexample :
    store_spotify_tokens "s" "" "r" 3600 "sc" 0 baseStore = .ok c5EmptyTokStore ∧
    dbLookup c5EmptyTokStore "s" = some c5EmptyTokDoc ∧
    c5EmptyTokDoc.spotify_access_token = some "" ∧
    c5EmptyTokDoc.spotify_token_expires_at = some 3600 ∧
    ¬ (3600 : Int) < 10 ∧
    (get_spotify_tokens "s" 10 c5EmptyTokStore).1 = none :=
  ⟨rfl, rfl, rfl, rfl, by decide, rfl⟩

theorem C7_read_absent_cases_witness :
    ((get_spotify_tokens "s" 10 c5EmptyTokStore).1 = none ↔
      dbLookup c5EmptyTokStore "s" = none ∨
      (∃ doc, dbLookup c5EmptyTokStore "s" = some doc ∧
        (doc.spotify_access_token = none ∨ doc.spotify_access_token = some "")) ∨
      (∃ doc e tokval, dbLookup c5EmptyTokStore "s" = some doc ∧
        doc.spotify_access_token = some tokval ∧ tokval ≠ "" ∧
        doc.spotify_token_expires_at = some e ∧ e < 10)) ∧
    (get_spotify_tokens "s" 10 c5EmptyTokStore).2 = c5EmptyTokStore :=
  C7_read_absent_cases "s" 10 c5EmptyTokStore

theorem splitFirstColon_eq_none (l : List Char) :
    splitFirstColon l = none ↔ ':' ∉ l := by
  induction l with
  | nil => simp [splitFirstColon]
  | cons c rest ih =>
    by_cases hc : c = ':'
    · subst hc
      simp [splitFirstColon]
    · rcases h : splitFirstColon rest with _ | p
      · simp only [splitFirstColon, hc, if_false, h, List.mem_cons]
        simp only [true_iff]
        exact fun hor => hor.elim (fun hcc => hc hcc.symm) (ih.mp h)
      · obtain ⟨a, b⟩ := p
        simp only [splitFirstColon, hc, if_false, h, List.mem_cons]
        constructor
        · intro habs
          cases habs
        · intro habs
          exfalso
          apply habs
          right
          by_contra hm
          rw [ih.mpr hm] at h
          cases h

/-- C8 counterexample: a callback invocation with no error parameter, no
authorization code, and a colon-free state fails with the missing-code error,
not a state-format or missing-state error. -/
theorem C8_counterexample :
    (':' ∉ ("abc" : String).data) ∧
    spotify_callback_pre none none (some "abc") = .error .noAuthorizationCode ∧
    CallbackError.noAuthorizationCode ≠ CallbackError.missingState ∧
    CallbackError.noAuthorizationCode ≠ CallbackError.invalidStateFormat :=
  ⟨by decide, rfl, by decide, by decide⟩

/-- C8 (amended): for every callback invocation whose state is missing or
contains no ':', handling fails before the code-for-token exchange is reached
(no provider token-endpoint call occurs); when additionally the provider
reported no error and an authorization code is present, the failure is
specifically the missing-state or state-format client error. -/
theorem C8_bad_state_stops_before_exchange (code error state : Option String)
    (hstate : state = none ∨ ∃ s, state = some s ∧ ':' ∉ s.data) :
    (∀ sid, spotify_callback_pre code error state ≠ .ok sid) ∧
    (truthyStr error = false → truthyStr code = true →
      (spotify_callback_pre code error state = .error .missingState ∨
       spotify_callback_pre code error state = .error .invalidStateFormat)) := by
  unfold spotify_callback_pre
  by_cases herr : truthyStr error = true
  · simp [herr]
  · have herr' : truthyStr error = false := by simpa using herr
    by_cases hcode : truthyStr code = true
    · rcases hstate with hnone | ⟨s, hs, hcolon⟩
      · subst hnone
        simp only [herr', hcode]
        simp [truthyStr]
      · subst hs
        by_cases hse : s = ""
        · subst hse
          simp only [herr', hcode]
          simp [truthyStr]
        · have hsplit : stateSplit s = none := by
            unfold stateSplit
            rw [(splitFirstColon_eq_none s.data).mpr hcolon]
          simp only [herr', hcode]
          simp [truthyStr, hse, hsplit]
    · have hcode' : truthyStr code = false := by simpa using hcode
      simp [herr', hcode']

theorem C8_bad_state_stops_before_exchange_witness :
    ((some "abc" : Option String) = none ∨
      ∃ s, (some "abc" : Option String) = some s ∧ ':' ∉ s.data) ∧
    ((∀ sid, spotify_callback_pre (some "c") none (some "abc") ≠ .ok sid) ∧
     (truthyStr none = false → truthyStr (some "c") = true →
       (spotify_callback_pre (some "c") none (some "abc") = .error .missingState ∨
        spotify_callback_pre (some "c") none (some "abc")
          = .error .invalidStateFormat))) :=
  ⟨Or.inr ⟨"abc", rfl, by decide⟩,
   C8_bad_state_stops_before_exchange (some "c") none (some "abc")
     (Or.inr ⟨"abc", rfl, by decide⟩)⟩

theorem tryExcept_isOk (body : Except String String) (handler : String → String) :
    ∃ s, tryExcept body handler = .ok s := by
  cases body <;> exact ⟨_, rfl⟩

/-- C9: every tool built by `create_spotify_tools`, on every input string and
every behaviour of the underlying spotipy client (including raising an
exception), returns an ordinary string result: the try/except wrapper turns
any exception raised in the body into an error string, so no exception ever
propagates to the caller. -/
theorem C9_tools_never_raise (sp : SpClient) (t : SpotifyTool)
    (ht : t ∈ create_spotify_tools sp) (input_text : String) :
    ∃ s, t.func input_text = .ok s := by
  simp only [create_spotify_tools, List.mem_cons, List.not_mem_nil, or_false] at ht
  rcases ht with h|h|h|h|h|h|h|h|h <;> subst h <;>
    simp only [get_user_profile, get_user_playlists, get_saved_tracks, search_spotify,
      get_top_tracks, get_recently_played, play_next_song, add_to_queue,
      get_user_current_track] <;>
    exact tryExcept_isOk _ _

theorem C9_tools_never_raise_witness :
    ((⟨"get_user_profile", get_user_profile spFailing⟩ : SpotifyTool)
        ∈ create_spotify_tools spFailing) ∧
    ∃ s, (⟨"get_user_profile", get_user_profile spFailing⟩ : SpotifyTool).func ""
        = .ok s :=
  ⟨by simp [create_spotify_tools],
   C9_tools_never_raise spFailing _ (by simp [create_spotify_tools]) ""⟩

theorem get_conversation_history_eq_some (cstore : ConversationStore)
    (sid cid : String) (limit : Int) (doc : ConversationDoc)
    (hdoc : dbLookup cstore (sid ++ "_" ++ cid) = some doc) :
    get_conversation_history cstore sid cid limit =
      (if limit ≠ 0 then pyTailSlice ((doc.messages.getD []).mergeSort msgLe) limit
       else (doc.messages.getD []).mergeSort msgLe) := by
  unfold get_conversation_history
  rw [hdoc]

theorem pyTailSlice_sublist {α : Type} (l : List α) (limit : Int) :
    List.Sublist (pyTailSlice l limit) l := by
  unfold pyTailSlice
  split <;> exact List.drop_sublist _ _

/-- C10: `get_conversation_history` returns the empty list for a missing
conversation document; otherwise its result is sorted by ascending
timestamp; when `limit = 0` it is all the stored messages (a permutation:
the stable sort of the full array); and when `limit` is positive it is the
suffix of the sorted messages of length `min limit (number of messages)` —
the last `limit` entries in chronological order. -/
theorem C10_conversation_history (cstore : ConversationStore)
    (session_id conversation_id : String) (limit : Int) :
    (dbLookup cstore (session_id ++ "_" ++ conversation_id) = none →
      get_conversation_history cstore session_id conversation_id limit = []) ∧
    (∀ doc, dbLookup cstore (session_id ++ "_" ++ conversation_id) = some doc →
      (get_conversation_history cstore session_id conversation_id limit).Pairwise
        (fun a b => a.timestamp ≤ b.timestamp) ∧
      (limit = 0 →
        List.Perm (get_conversation_history cstore session_id conversation_id limit)
          (doc.messages.getD [])) ∧
      (0 < limit →
        (get_conversation_history cstore session_id conversation_id limit).length
            = min limit.toNat (doc.messages.getD []).length ∧
        List.IsSuffix (get_conversation_history cstore session_id conversation_id limit)
          ((doc.messages.getD []).mergeSort msgLe))) := by
  have htrans : ∀ a b c : ConversationMessage,
      msgLe a b → msgLe b c → msgLe a c := by
    intro a b c hab hbc
    simp only [msgLe, decide_eq_true_eq] at *
    omega
  have htot : ∀ a b : ConversationMessage, msgLe a b || msgLe b a := by
    intro a b
    simp only [msgLe, Bool.or_eq_true, decide_eq_true_eq]
    omega
  constructor
  · intro hnone
    unfold get_conversation_history
    rw [hnone]
  · intro doc hdoc
    have heq := get_conversation_history_eq_some cstore session_id conversation_id
      limit doc hdoc
    have hsorted := List.sorted_mergeSort htrans htot (doc.messages.getD [])
    have hperm := List.mergeSort_perm (doc.messages.getD []) msgLe
    refine ⟨?_, ?_, ?_⟩
    · rw [heq]
      have hsub : List.Sublist
          (if limit ≠ 0
            then pyTailSlice ((doc.messages.getD []).mergeSort msgLe) limit
            else (doc.messages.getD []).mergeSort msgLe)
          ((doc.messages.getD []).mergeSort msgLe) := by
        split
        · exact pyTailSlice_sublist _ _
        · exact List.Sublist.refl _
      exact (List.Pairwise.sublist hsub hsorted).imp
        (fun h => by simpa [msgLe] using h)
    · intro h0
      rw [heq]
      simp only [h0, ne_eq, not_true_eq_false, if_false]
      exact hperm
    · intro hpos
      have hne : limit ≠ 0 := by omega
      have hnn : 0 ≤ limit := by omega
      rw [heq]
      simp only [hne, ne_eq, not_false_eq_true, if_true]
      unfold pyTailSlice
      rw [if_pos hnn]
      constructor
      · rw [List.length_drop, hperm.length_eq]
        omega
      · exact List.drop_suffix _ _

theorem C10_conversation_history_witness :
    dbLookup c10Store ("s" ++ "_" ++ "c") = some c10Doc ∧
    List.Perm (get_conversation_history c10Store "s" "c" 0)
      (c10Doc.messages.getD []) :=
  ⟨rfl, (((C10_conversation_history c10Store "s" "c" 0).2 c10Doc rfl).2.1 rfl)⟩

end SpotifyAgent
